import Mathlib

/-!
Shallow embedding of the leader-view reconciliation engine
(`internal/querycoordv2/checkers/leader_checker.go`): the `LeaderChecker`'s
`Check` scan and its three sub-diffs `findNeedLoadedSegments`,
`findNeedRemovedSegments` and `findNeedSyncPartitionStats`, over explicit
read-only snapshots of the cluster-topology, observed-distribution and
target-state readers.

Go maps are embedded as association lists (first binding wins, as
`List.lookup` does); 64-bit integer identifiers and versions are embedded as
`Int` (the checker only compares them, never does arithmetic on them, so
overflow is irrelevant).
-/

namespace Milvus

/-- An entry of a leader view's segment routing table
(`querypb.SegmentDist`): the node said to host the segment, and a version
token. The checker compares only `nodeID`. -/
structure SegmentDist where
  nodeID : Int
  version : Int
deriving DecidableEq, Repr

/-- An observed segment placement (`meta.Segment`): segment identity and
metadata together with the node that reported loading it and the placement
version. -/
structure Segment where
  id : Int
  collectionID : Int
  insertChannel : String
  node : Int
  version : Int
deriving DecidableEq, Repr

/-- A delegator's routing table for one channel (`meta.LeaderView`):
segment ID to hosting-node entry, and partition ID to applied
partition-statistics version. -/
structure LeaderView where
  id : Int
  collectionID : Int
  channel : String
  segments : List (Int × SegmentDist)
  partitionStatsVersions : List (Int × Int)
deriving DecidableEq, Repr

/-- A replica (`meta.Replica`): its read-write member nodes, its
streaming-query member nodes (used instead of the read-write set when the
process-wide streaming flag is on), and the full member set `nodes` used
when restricting observed segment placements to the replica. -/
structure Replica where
  id : Int
  collectionID : Int
  rwNodes : List Int
  rwSQNodes : List Int
  nodes : List Int
deriving DecidableEq, Repr

/-- A channel-distribution entry (`meta.DmChannel`): the node currently
acting as delegator for the channel, and the leader view it reports. -/
structure DmChannel where
  collectionID : Int
  node : Int
  view : LeaderView
deriving DecidableEq, Repr

/-- Modelled from the spec: one generation of a collection's target state —
the sealed segment IDs that should be loaded, and per channel the desired
partition-statistics versions. -/
structure CollectionTarget where
  collectionID : Int
  sealedSegments : List Int
  channelPartStats : List (String × List (Int × Int))
deriving DecidableEq, Repr

/-- Modelled from the spec: the target-state reader's snapshot, split into
the stable "current" generation and the in-progress "next" generation. -/
structure TargetState where
  current : List CollectionTarget
  next : List CollectionTarget
deriving DecidableEq, Repr

/-- Find the target entry of one generation for a collection, if any. -/
def getCollectionTarget (targets : List CollectionTarget) (collectionID : Int) :
    Option CollectionTarget :=
  targets.find? (fun t => t.collectionID == collectionID)

/-- Whether one target generation desires a given sealed segment. -/
def inGenTarget (targets : List CollectionTarget) (collectionID segmentID : Int) : Bool :=
  match getCollectionTarget targets collectionID with
  | some t => t.sealedSegments.contains segmentID
  | none => false

/-- Modelled from the spec: `IsNextTargetExist` of the target-state reader
(not under src/) — the next-generation target exists for the collection. -/
def TargetState.isNextTargetExist (ts : TargetState) (collectionID : Int) : Bool :=
  (getCollectionTarget ts.next collectionID).isSome

/-- Modelled from the spec: `IsCurrentTargetExist` of the target-state
reader (not under src/) — the current-generation target exists for the
collection. -/
def TargetState.isCurrentTargetExist (ts : TargetState) (collectionID : Int) : Bool :=
  (getCollectionTarget ts.current collectionID).isSome

/-- Modelled from the spec: `GetSealedSegment` of the target-state reader
(not under src/) under the current-target-first policy — absent iff the
segment is desired in neither generation. The checker only tests presence
of the returned descriptor, so presence is what is embedded. -/
def TargetState.getSealedSegmentCTF (ts : TargetState) (collectionID segmentID : Int) : Bool :=
  inGenTarget ts.current collectionID segmentID || inGenTarget ts.next collectionID segmentID

/-- Modelled from the spec: `GetDmChannel` of the target-state reader (not
under src/) — fetch the channel descriptor's desired partition-statistics
versions, preferring current-generation data but falling back to the next
generation when current is absent. -/
def TargetState.getDmChannelCTF (ts : TargetState) (collectionID : Int) (channel : String) :
    Option (List (Int × Int)) :=
  match (getCollectionTarget ts.current collectionID).bind
      (fun t => t.channelPartStats.lookup channel) with
  | some ps => some ps
  | none =>
    (getCollectionTarget ts.next collectionID).bind
      (fun t => t.channelPartStats.lookup channel)

/-- The whole read-only snapshot the checker scans: activation flag,
process-wide streaming flag, collection enumeration and metadata presence
(topology reader), replicas, channel and segment distribution (observed
reader), and the target state. -/
structure ClusterState where
  active : Bool
  streamingEnabled : Bool
  collections : List Int
  collectionMeta : List Int
  replicas : List Replica
  channelDist : List DmChannel
  segmentDist : List Segment
  target : TargetState
deriving DecidableEq, Repr

/-- Embeds `meta.GetCollection` as a presence test: the collection's metadata
exists in the topology reader. -/
def ClusterState.getCollection (s : ClusterState) (collectionID : Int) : Bool :=
  s.collectionMeta.contains collectionID

/-- Embeds `ReplicaManager.GetByCollection`: the replicas of one collection. -/
def ClusterState.getReplicasByCollection (s : ClusterState) (collectionID : Int) :
    List Replica :=
  s.replicas.filter (fun r => r.collectionID == collectionID)

/-- Embeds `ChannelDistManager.GetByFilter(WithCollectionID2Channel,
WithNodeID2Channel)`: the channels a node delegates for a collection. -/
def ClusterState.getDelegatorList (s : ClusterState) (collectionID node : Int) :
    List DmChannel :=
  s.channelDist.filter (fun d => d.collectionID == collectionID && d.node == node)

/-- Embeds `SegmentDistManager.GetByFilter(WithChannel, WithReplica)`: observed
segment placements on the channel, restricted to the replica's collection
and member nodes. -/
def ClusterState.getSegmentDist (s : ClusterState) (channel : String) (replica : Replica) :
    List Segment :=
  s.segmentDist.filter (fun seg =>
    seg.insertChannel == channel &&
      (seg.collectionID == replica.collectionID && replica.nodes.contains seg.node))

/-- Kind of a reconciliation task's leader action (`task.ActionType`). -/
inductive ActionType
  | grow
  | reduce
  | update
deriving DecidableEq, Repr

/-- Task priority (`task.Priority`). -/
inductive TaskPriority
  | low
  | normal
  | high
deriving DecidableEq, Repr

/-- Subject of a reconciliation task: one segment, or a batch of
partition-statistics versions. -/
inductive TaskSubject
  | segment (segmentID : Int)
  | partStats (versions : List (Int × Int))
deriving DecidableEq, Repr

/-- A reconciliation task as assembled by the checker: the leader action's
fields (`task.NewLeaderAction` / `NewLeaderUpdatePartStatsAction`) plus the
task envelope (`task.NewLeaderSegmentTask` / `NewLeaderPartStatsTask`,
`SetPriority`, `SetReason`). -/
structure LeaderTask where
  kind : ActionType
  collectionID : Int
  replicaID : Int
  leaderViewID : Int
  workerNode : Int
  channel : String
  subject : TaskSubject
  tsHint : Int
  priority : TaskPriority
  reason : String
deriving DecidableEq, Repr

/-- Modelled from the spec: `utils.FindMaxVersionSegments` (not under
src/), the segment version resolver — for each segment ID keep the
placement records of maximal placement version; ties are all retained as
equally-current candidates. -/
def FindMaxVersionSegments (dist : List Segment) : List Segment :=
  dist.filter (fun s => dist.all (fun t => t.id != s.id || decide (t.version ≤ s.version)))

/-- The grow task built at `leader_checker.go:185-197`:
`NewLeaderAction(leaderView.ID, s.Node, Grow, s.GetInsertChannel(),
s.GetID(), now)` wrapped in a `LeaderSegmentTask` for `s.GetCollectionID()`
with low priority and reason "add segment to leader view". -/
def mkGrowTask (replica : Replica) (leaderView : LeaderView) (s : Segment) (now : Int) :
    LeaderTask :=
  { kind := .grow
    collectionID := s.collectionID
    replicaID := replica.id
    leaderViewID := leaderView.id
    workerNode := s.node
    channel := s.insertChannel
    subject := .segment s.id
    tsHint := now
    priority := .low
    reason := "add segment to leader view" }

/-- Embeds `findNeedLoadedSegments` (leader_checker.go:159-202): over the resolved
max-version placements, keep those desired under current-target-first; emit
a grow task when the leader view lacks the segment's entry or the entry
names a different node than the placement. -/
def findNeedLoadedSegments (target : TargetState) (replica : Replica)
    (leaderView : LeaderView) (dist : List Segment) (now : Int) : List LeaderTask :=
  (FindMaxVersionSegments dist).filterMap fun s =>
    if target.getSealedSegmentCTF leaderView.collectionID s.id then
      match leaderView.segments.lookup s.id with
      | some version =>
        if version.nodeID != s.node then some (mkGrowTask replica leaderView s now) else none
      | none => some (mkGrowTask replica leaderView s now)
    else none

/-- The reduce task built at `leader_checker.go:230-242`:
`NewLeaderAction(leaderView.ID, leaderView.ID, Reduce, leaderView.Channel,
sid, 0)` wrapped in a `LeaderSegmentTask` for `leaderView.CollectionID`
with low priority and reason "remove segment from leader view". -/
def mkReduceTask (replica : Replica) (leaderView : LeaderView) (segmentID : Int) :
    LeaderTask :=
  { kind := .reduce
    collectionID := leaderView.collectionID
    replicaID := replica.id
    leaderViewID := leaderView.id
    workerNode := leaderView.id
    channel := leaderView.channel
    subject := .segment segmentID
    tsHint := 0
    priority := .low
    reason := "remove segment from leader view" }

/-- Embeds `findNeedRemovedSegments` (leader_checker.go:204-246): a leader-view
segment entry is pruned when the segment is in no observed placement of the
channel/replica and absent under current-target-first. -/
def findNeedRemovedSegments (target : TargetState) (replica : Replica)
    (leaderView : LeaderView) (dists : List Segment) : List LeaderTask :=
  leaderView.segments.filterMap fun p =>
    if dists.any (fun s => s.id == p.1) ||
        target.getSealedSegmentCTF leaderView.collectionID p.1 then none
    else some (mkReduceTask replica leaderView p.1)

/-- The batch accumulated by the loop at `leader_checker.go:124-134`: the
target descriptor's partitions whose version in the leader view (absent
entries read as the Go zero value 0) is strictly below the target's, mapped
to the target's version. -/
def partStatsToUpdate (psTarget psLView : List (Int × Int)) : List (Int × Int) :=
  psTarget.filter fun p => decide ((psLView.lookup p.1).getD 0 < p.2)

/-- The update-stats task built at `leader_checker.go:136-149`:
`NewLeaderUpdatePartStatsAction(leaderView.ID, nodeID, Update,
leaderView.Channel, batch)` wrapped in a `LeaderPartStatsTask` with low
priority and reason "sync partition stats versions". -/
def mkPartStatsTask (replica : Replica) (leaderView : LeaderView) (nodeID : Int)
    (batch : List (Int × Int)) : LeaderTask :=
  { kind := .update
    collectionID := leaderView.collectionID
    replicaID := replica.id
    leaderViewID := leaderView.id
    workerNode := nodeID
    channel := leaderView.channel
    subject := .partStats batch
    tsHint := 0
    priority := .low
    reason := "sync partition stats versions" }

/-- Embeds `findNeedSyncPartitionStats` (leader_checker.go:114-157): fetch the
channel descriptor; accumulate the out-of-date partitions into one batch;
emit a single task iff the batch is non-empty. -/
def findNeedSyncPartitionStats (target : TargetState) (replica : Replica)
    (leaderView : LeaderView) (nodeID : Int) : List LeaderTask :=
  match target.getDmChannelCTF leaderView.collectionID leaderView.channel with
  | none => []
  | some psTarget =>
    let batch := partStatsToUpdate psTarget leaderView.partitionStatsVersions
    if batch.isEmpty then [] else [mkPartStatsTask replica leaderView nodeID batch]

/-- Embeds `readyToCheck` (leader_checker.go:68-73): metadata present and at least
one target generation exists. -/
def readyToCheck (s : ClusterState) (collectionID : Int) : Bool :=
  s.getCollection collectionID &&
    (s.target.isNextTargetExist collectionID || s.target.isCurrentTargetExist collectionID)

/-- The per-delegator body of the scan (leader_checker.go:102-105): filter
the observed placements to the view's channel and the replica, then
concatenate the three sub-diffs. -/
def checkDelegator (s : ClusterState) (replica : Replica) (node : Int) (d : DmChannel)
    (now : Int) : List LeaderTask :=
  let dist := s.getSegmentDist d.view.channel replica
  findNeedLoadedSegments s.target replica d.view dist now ++
    findNeedRemovedSegments s.target replica d.view dist ++
      findNeedSyncPartitionStats s.target replica d.view node

/-- The per-collection body of the scan (leader_checker.go:84-108): skip
when not ready to check or when the collection vanished; otherwise fan out
over replicas, their mode-selected member nodes, and each node's delegated
channels. -/
def checkCollection (s : ClusterState) (now collectionID : Int) : List LeaderTask :=
  if !readyToCheck s collectionID then []
  else if !s.getCollection collectionID then []
  else
    (s.getReplicasByCollection collectionID).flatMap fun replica =>
      (if s.streamingEnabled then replica.rwSQNodes else replica.rwNodes).flatMap fun node =>
        (s.getDelegatorList replica.collectionID node).flatMap fun d =>
          checkDelegator s replica node d now

/-- Embeds `Check` (leader_checker.go:75-112): return nothing when the activation
gate is off; otherwise scan every enumerated collection. -/
def Check (s : ClusterState) (now : Int) : List LeaderTask :=
  if !s.active then [] else s.collections.flatMap (checkCollection s now)

/-- Stated from the claim's words: the leader view's segment map has no
entry for the placement's segment ID, or its entry names a hosting node
different from the placement's node. -/
def growNeeded (leaderView : LeaderView) (s : Segment) : Bool :=
  match leaderView.segments.lookup s.id with
  | none => true
  | some entry => entry.nodeID != s.node

/-- The per-task content compared by the idempotence property: kind, target
leader view, target worker node and subject — everything but the timestamp
hint, priority and reason envelope. -/
def taskKey (t : LeaderTask) : ActionType × Int × Int × TaskSubject :=
  (t.kind, t.leaderViewID, t.workerNode, t.subject)

/-- The snapshot with one collection dropped from the enumeration and
everything else unchanged. -/
def dropCollection (s : ClusterState) (collectionID : Int) : ClusterState :=
  { s with collections := s.collections.filter (fun c => c != collectionID) }

/-- Test selecting the grow tasks whose subject is one given segment. -/
def isGrowFor (segmentID : Int) (t : LeaderTask) : Bool :=
  t.kind == ActionType.grow && t.subject == TaskSubject.segment segmentID

/-- A minimal topology around one delegator: one collection, one replica
with one read-write member node, one delegated channel reporting the given
leader view, and the given observed placements and target state. -/
def oneDelegatorState (replica : Replica) (node : Int) (leaderView : LeaderView)
    (dist : List Segment) (ts : TargetState) : ClusterState :=
  { active := true
    streamingEnabled := false
    collections := [leaderView.collectionID]
    collectionMeta := [leaderView.collectionID]
    replicas := [replica]
    channelDist := [⟨replica.collectionID, node, leaderView⟩]
    segmentDist := dist
    target := ts }

/-- State-threaded flatMap: each step may replace the threaded state. -/
def stFlatMap {σ α β : Type} (f : σ → α → σ × List β) : σ → List α → σ × List β
  | s, [] => (s, [])
  | s, a :: l =>
    let r := f s a
    let rest := stFlatMap f r.1 l
    (rest.1, r.2 ++ rest.2)

/-- State-threaded filterMap: each step may replace the threaded state. -/
def stFilterMap {σ α β : Type} (f : σ → α → σ × Option β) : σ → List α → σ × List β
  | s, [] => (s, [])
  | s, a :: l =>
    let r := f s a
    let rest := stFilterMap f r.1 l
    (rest.1,
      match r.2 with
      | some b => b :: rest.2
      | none => rest.2)

/-- Reader call: the activation gate (`IsActive`). -/
def isActiveSt (s : ClusterState) : ClusterState × Bool :=
  (s, s.active)

/-- Reader call: `CollectionManager.GetAll`. -/
def getAllCollectionsSt (s : ClusterState) : ClusterState × List Int :=
  (s, s.collections)

/-- Reader call: collection metadata presence. -/
def getCollectionSt (s : ClusterState) (collectionID : Int) : ClusterState × Bool :=
  (s, s.getCollection collectionID)

/-- Reader call: `readyToCheck`'s combined reads. -/
def readyToCheckSt (s : ClusterState) (collectionID : Int) : ClusterState × Bool :=
  (s, readyToCheck s collectionID)

/-- Reader call: `ReplicaManager.GetByCollection`. -/
def getReplicasByCollectionSt (s : ClusterState) (collectionID : Int) :
    ClusterState × List Replica :=
  (s, s.getReplicasByCollection collectionID)

/-- Reader call: `ChannelDistManager.GetByFilter`. -/
def getDelegatorListSt (s : ClusterState) (collectionID node : Int) :
    ClusterState × List DmChannel :=
  (s, s.getDelegatorList collectionID node)

/-- Reader call: `SegmentDistManager.GetByFilter`. -/
def getSegmentDistSt (s : ClusterState) (channel : String) (replica : Replica) :
    ClusterState × List Segment :=
  (s, s.getSegmentDist channel replica)

/-- Reader call: `GetSealedSegment` under current-target-first. -/
def getSealedSegmentSt (s : ClusterState) (collectionID segmentID : Int) :
    ClusterState × Bool :=
  (s, s.target.getSealedSegmentCTF collectionID segmentID)

/-- Reader call: `GetDmChannel`. -/
def getDmChannelSt (s : ClusterState) (collectionID : Int) (channel : String) :
    ClusterState × Option (List (Int × Int)) :=
  (s, s.target.getDmChannelCTF collectionID channel)

/-- State-threaded `findNeedLoadedSegments`: every target read goes through
the threaded state. -/
def findNeedLoadedSegmentsSt (s : ClusterState) (replica : Replica)
    (leaderView : LeaderView) (dist : List Segment) (now : Int) :
    ClusterState × List LeaderTask :=
  stFilterMap
    (fun s1 seg =>
      let r := getSealedSegmentSt s1 leaderView.collectionID seg.id
      (r.1,
        if r.2 then
          match leaderView.segments.lookup seg.id with
          | some version =>
            if version.nodeID != seg.node then some (mkGrowTask replica leaderView seg now)
            else none
          | none => some (mkGrowTask replica leaderView seg now)
        else none))
    s (FindMaxVersionSegments dist)

/-- State-threaded `findNeedRemovedSegments`. -/
def findNeedRemovedSegmentsSt (s : ClusterState) (replica : Replica)
    (leaderView : LeaderView) (dists : List Segment) : ClusterState × List LeaderTask :=
  stFilterMap
    (fun s1 p =>
      let r := getSealedSegmentSt s1 leaderView.collectionID p.1
      (r.1,
        if dists.any (fun x => x.id == p.1) || r.2 then none
        else some (mkReduceTask replica leaderView p.1)))
    s leaderView.segments

/-- State-threaded `findNeedSyncPartitionStats`. -/
def findNeedSyncPartitionStatsSt (s : ClusterState) (replica : Replica)
    (leaderView : LeaderView) (nodeID : Int) : ClusterState × List LeaderTask :=
  let r := getDmChannelSt s leaderView.collectionID leaderView.channel
  match r.2 with
  | none => (r.1, [])
  | some psTarget =>
    let batch := partStatsToUpdate psTarget leaderView.partitionStatsVersions
    (r.1, if batch.isEmpty then [] else [mkPartStatsTask replica leaderView nodeID batch])

/-- State-threaded per-delegator body. -/
def checkDelegatorSt (s : ClusterState) (replica : Replica) (node : Int) (d : DmChannel)
    (now : Int) : ClusterState × List LeaderTask :=
  let rd := getSegmentDistSt s d.view.channel replica
  let r1 := findNeedLoadedSegmentsSt rd.1 replica d.view rd.2 now
  let r2 := findNeedRemovedSegmentsSt r1.1 replica d.view rd.2
  let r3 := findNeedSyncPartitionStatsSt r2.1 replica d.view node
  (r3.1, r1.2 ++ r2.2 ++ r3.2)

/-- State-threaded per-collection body. -/
def checkCollectionSt (s : ClusterState) (now collectionID : Int) :
    ClusterState × List LeaderTask :=
  let rr := readyToCheckSt s collectionID
  if !rr.2 then (rr.1, [])
  else
    let rc := getCollectionSt rr.1 collectionID
    if !rc.2 then (rc.1, [])
    else
      let rrep := getReplicasByCollectionSt rc.1 collectionID
      stFlatMap
        (fun s1 replica =>
          stFlatMap
            (fun s2 node =>
              let rd := getDelegatorListSt s2 replica.collectionID node
              stFlatMap (fun s3 d => checkDelegatorSt s3 replica node d now) rd.1 rd.2)
            s1 (if s1.streamingEnabled then replica.rwSQNodes else replica.rwNodes))
        rrep.1 rrep.2

/-- State-threaded full scan. -/
def CheckSt (s : ClusterState) (now : Int) : ClusterState × List LeaderTask :=
  let ra := isActiveSt s
  if !ra.2 then (ra.1, [])
  else
    let rc := getAllCollectionsSt ra.1
    stFlatMap (fun s1 c => checkCollectionSt s1 now c) rc.1 rc.2

/-- Example replica used to instantiate the theorems on concrete data. -/
def exReplica : Replica :=
  { id := 10, collectionID := 100, rwNodes := [1], rwSQNodes := [9], nodes := [1, 2, 3] }

/-- Example leader view: segment 5 routed to node 2, segment 6 garbage,
partition 1 current, partition 2 stale. -/
def exLV : LeaderView :=
  { id := 1, collectionID := 100, channel := "ch",
    segments := [(5, ⟨2, 1⟩), (6, ⟨2, 1⟩)],
    partitionStatsVersions := [(1, 3), (2, 2)] }

/-- Example target state: segments 5 and 7 desired, partition versions
1 ↦ 3 and 2 ↦ 5 on channel "ch". -/
def exTS : TargetState :=
  { current := [{ collectionID := 100, sealedSegments := [5, 7],
                  channelPartStats := [("ch", [(1, 3), (2, 5)])] }],
    next := [] }

/-- Example observed placement: the freshest copy of segment 5, on node 3. -/
def exSeg5 : Segment :=
  { id := 5, collectionID := 100, insertChannel := "ch", node := 3, version := 2 }

/-- Example cluster snapshot combining the above, with a second enumerated
collection 200 that has no metadata. -/
def exST : ClusterState :=
  { active := true, streamingEnabled := false,
    collections := [100, 200], collectionMeta := [100],
    replicas := [exReplica],
    channelDist := [{ collectionID := 100, node := 1, view := exLV }],
    segmentDist := [exSeg5, ⟨5, 100, "ch", 2, 1⟩, ⟨7, 100, "ch", 2, 1⟩],
    target := exTS }

/-- Example leader view with an empty routing table, for the convergence
round trip. -/
def exLV0 : LeaderView :=
  { id := 1, collectionID := 100, channel := "ch", segments := [],
    partitionStatsVersions := [] }

/-- Example target state desiring only segment 5. -/
def exTS0 : TargetState :=
  { current := [{ collectionID := 100, sealedSegments := [5], channelPartStats := [] }],
    next := [] }

/-- Characterizes when the per-placement body of `findNeedLoadedSegments`
emits a task. -/
theorem needLoaded_eq_some (target : TargetState) (replica : Replica)
    (leaderView : LeaderView) (now : Int) (s : Segment) (t : LeaderTask) :
    ((if target.getSealedSegmentCTF leaderView.collectionID s.id then
        match leaderView.segments.lookup s.id with
        | some version =>
          if version.nodeID != s.node then some (mkGrowTask replica leaderView s now)
          else none
        | none => some (mkGrowTask replica leaderView s now)
      else none) = some t) ↔
      (target.getSealedSegmentCTF leaderView.collectionID s.id = true ∧
        growNeeded leaderView s = true ∧ t = mkGrowTask replica leaderView s now) := by
  by_cases hc : target.getSealedSegmentCTF leaderView.collectionID s.id
  · cases hl : leaderView.segments.lookup s.id with
    | none => simp [growNeeded, hc, hl, eq_comm]
    | some version =>
      by_cases hn : version.nodeID != s.node
      · simp [growNeeded, hc, hl, hn, eq_comm]
      · simp [growNeeded, hc, hl, hn]
  · simp [growNeeded, hc]

/-- Membership characterization of `findNeedLoadedSegments`. -/
theorem mem_findNeedLoadedSegments {target : TargetState} {replica : Replica}
    {leaderView : LeaderView} {dist : List Segment} {now : Int} {t : LeaderTask} :
    t ∈ findNeedLoadedSegments target replica leaderView dist now ↔
      ∃ s, s ∈ FindMaxVersionSegments dist ∧
        target.getSealedSegmentCTF leaderView.collectionID s.id = true ∧
        growNeeded leaderView s = true ∧
        t = mkGrowTask replica leaderView s now := by
  simp only [findNeedLoadedSegments, List.mem_filterMap, needLoaded_eq_some]

/-- Characterizes when the per-entry body of `findNeedRemovedSegments`
emits a task. -/
theorem needRemoved_eq_some (target : TargetState) (replica : Replica)
    (leaderView : LeaderView) (dists : List Segment) (p : Int × SegmentDist)
    (t : LeaderTask) :
    ((if dists.any (fun s => s.id == p.1) ||
          target.getSealedSegmentCTF leaderView.collectionID p.1 then none
      else some (mkReduceTask replica leaderView p.1)) = some t) ↔
      ((∀ s ∈ dists, s.id ≠ p.1) ∧
        inGenTarget target.current leaderView.collectionID p.1 = false ∧
        inGenTarget target.next leaderView.collectionID p.1 = false ∧
        t = mkReduceTask replica leaderView p.1) := by
  by_cases hc : dists.any (fun s => s.id == p.1) ||
      target.getSealedSegmentCTF leaderView.collectionID p.1
  · simp only [hc, if_true]
    rw [Bool.or_eq_true] at hc
    constructor
    · intro h; exact absurd h (by simp)
    · rintro ⟨hd, hcur, hnext, -⟩
      rcases hc with hc | hc
      · rw [List.any_eq_true] at hc
        obtain ⟨x, hx, hxe⟩ := hc
        exact absurd (by simpa using hxe) (hd x hx)
      · rw [TargetState.getSealedSegmentCTF, Bool.or_eq_true] at hc
        rcases hc with hc | hc
        · exact absurd hc (by simp [hcur])
        · exact absurd hc (by simp [hnext])
  · rw [Bool.not_eq_true, Bool.or_eq_false_iff] at hc
    obtain ⟨hd, hts⟩ := hc
    rw [TargetState.getSealedSegmentCTF, Bool.or_eq_false_iff] at hts
    rw [List.any_eq_false] at hd
    have hd' : ∀ s ∈ dists, s.id ≠ p.1 := fun x hx => by simpa using hd x hx
    simp [List.any_eq_false.mpr hd, hts.1, hts.2, TargetState.getSealedSegmentCTF, hd', eq_comm]
    intro _ s hs h
    exact hd' s hs h.symm

/-- Membership characterization of `findNeedRemovedSegments`: an entry is
pruned iff its segment has no observed placement and is desired by neither
target generation. -/
theorem mem_findNeedRemovedSegments {target : TargetState} {replica : Replica}
    {leaderView : LeaderView} {dists : List Segment} {t : LeaderTask} :
    t ∈ findNeedRemovedSegments target replica leaderView dists ↔
      ∃ p, p ∈ leaderView.segments ∧
        (∀ s ∈ dists, s.id ≠ p.1) ∧
        inGenTarget target.current leaderView.collectionID p.1 = false ∧
        inGenTarget target.next leaderView.collectionID p.1 = false ∧
        t = mkReduceTask replica leaderView p.1 := by
  simp only [findNeedRemovedSegments, List.mem_filterMap, needRemoved_eq_some]

/-- Membership characterization of the accumulated partition-stats batch. -/
theorem mem_partStatsToUpdate {psTarget psLView : List (Int × Int)} {pv : Int × Int} :
    pv ∈ partStatsToUpdate psTarget psLView ↔
      pv ∈ psTarget ∧ (psLView.lookup pv.1).getD 0 < pv.2 := by
  simp [partStatsToUpdate]

/-- With no channel descriptor, `findNeedSyncPartitionStats` emits nothing. -/
theorem findNeedSyncPartitionStats_none {target : TargetState} {replica : Replica}
    {leaderView : LeaderView} {nodeID : Int}
    (h : target.getDmChannelCTF leaderView.collectionID leaderView.channel = none) :
    findNeedSyncPartitionStats target replica leaderView nodeID = [] := by
  unfold findNeedSyncPartitionStats
  rw [h]

/-- With a channel descriptor present, `findNeedSyncPartitionStats` emits
one task iff the batch is non-empty, carrying the whole batch. -/
theorem findNeedSyncPartitionStats_some {target : TargetState} {replica : Replica}
    {leaderView : LeaderView} {nodeID : Int} {psTarget : List (Int × Int)}
    (h : target.getDmChannelCTF leaderView.collectionID leaderView.channel = some psTarget) :
    findNeedSyncPartitionStats target replica leaderView nodeID =
      if partStatsToUpdate psTarget leaderView.partitionStatsVersions = [] then []
      else
        [mkPartStatsTask replica leaderView nodeID
          (partStatsToUpdate psTarget leaderView.partitionStatsVersions)] := by
  unfold findNeedSyncPartitionStats
  rw [h]
  simp only [List.isEmpty_iff]

/-- Pointwise-equal functions give equal flatMaps. -/
theorem flatMap_ext {α β : Type} {f g : α → List β} (l : List α) (h : ∀ a, f a = g a) :
    l.flatMap f = l.flatMap g := by
  induction l with
  | nil => rfl
  | cons a l ih => simp only [List.flatMap_cons, h, ih]

/-- Pointwise-equal functions give equal filterMaps. -/
theorem filterMap_ext {α β : Type} {f g : α → Option β} (l : List α) (h : ∀ a, f a = g a) :
    l.filterMap f = l.filterMap g := by
  induction l with
  | nil => rfl
  | cons a l ih => simp only [List.filterMap_cons, h, ih]

/-- A grow task's content is independent of the invocation time. -/
theorem taskKey_findNeedLoadedSegments (target : TargetState) (replica : Replica)
    (leaderView : LeaderView) (dist : List Segment) (now1 now2 : Int) :
    (findNeedLoadedSegments target replica leaderView dist now1).map taskKey =
      (findNeedLoadedSegments target replica leaderView dist now2).map taskKey := by
  unfold findNeedLoadedSegments
  rw [List.map_filterMap, List.map_filterMap]
  apply filterMap_ext
  intro s
  by_cases hc : target.getSealedSegmentCTF leaderView.collectionID s.id
  · cases hl : leaderView.segments.lookup s.id with
    | none => simp [hc, hl, taskKey, mkGrowTask]
    | some version =>
      by_cases hn : version.nodeID != s.node
      · simp [hc, hl, hn, taskKey, mkGrowTask]
      · simp [hc, hl, hn]
  · simp [hc]

/-- The content of one delegator's diff is independent of the invocation
time. -/
theorem taskKey_checkDelegator (s : ClusterState) (replica : Replica) (node : Int)
    (d : DmChannel) (now1 now2 : Int) :
    (checkDelegator s replica node d now1).map taskKey =
      (checkDelegator s replica node d now2).map taskKey := by
  unfold checkDelegator
  simp only [List.map_append]
  rw [taskKey_findNeedLoadedSegments _ _ _ _ now1 now2]

/-- The content of one collection's scan is independent of the invocation
time. -/
theorem taskKey_checkCollection (s : ClusterState) (cid now1 now2 : Int) :
    (checkCollection s now1 cid).map taskKey = (checkCollection s now2 cid).map taskKey := by
  unfold checkCollection
  split
  · rfl
  · split
    · rfl
    · rw [List.map_flatMap, List.map_flatMap]
      apply flatMap_ext
      intro replica
      rw [List.map_flatMap, List.map_flatMap]
      apply flatMap_ext
      intro node
      rw [List.map_flatMap, List.map_flatMap]
      apply flatMap_ext
      intro d
      exact taskKey_checkDelegator s replica node d now1 now2

/-- A collection whose per-collection body is empty contributes nothing:
dropping it from the enumeration does not change the scan's output. -/
theorem flatMap_filter_ne {β : Type} (f : Int → List β) (l : List Int) (c0 : Int)
    (h : f c0 = []) :
    l.flatMap f = (l.filter (fun c => c != c0)).flatMap f := by
  induction l with
  | nil => rfl
  | cons a l ih =>
    by_cases ha : a = c0
    · subst ha
      simp only [List.flatMap_cons, h, List.nil_append, List.filter_cons, bne_self_eq_false,
        Bool.false_eq_true, if_false]
      exact ih
    · rw [List.filter_cons_of_pos (by simpa using ha), List.flatMap_cons, List.flatMap_cons, ih]

/-- The per-collection body reads everything except the collection
enumeration, so dropping a collection from the enumeration leaves it
unchanged. -/
theorem checkCollection_dropCollection (s : ClusterState) (collectionID now c : Int) :
    checkCollection (dropCollection s collectionID) now c = checkCollection s now c := rfl

/-- Membership in the resolved set implies membership in the raw observed
placements. -/
theorem mem_of_mem_FindMaxVersionSegments {dist : List Segment} {s : Segment}
    (h : s ∈ FindMaxVersionSegments dist) : s ∈ dist :=
  (List.mem_filter.mp h).1

/-- Computes `isGrowFor` on a built grow task. -/
theorem isGrowFor_mkGrowTask (segmentID : Int) (replica : Replica)
    (leaderView : LeaderView) (x : Segment) (now : Int) :
    isGrowFor segmentID (mkGrowTask replica leaderView x now) = (x.id == segmentID) := by
  by_cases h : x.id = segmentID <;> simp [isGrowFor, mkGrowTask, h]

/-- Restricting a filterMap to the elements that can produce output. -/
theorem filterMap_eq_filterMap_filter {α β : Type} {g : α → Option β} {q : α → Bool}
    (hq : ∀ a, q a = false → g a = none) (l : List α) :
    l.filterMap g = (l.filter q).filterMap g := by
  induction l with
  | nil => rfl
  | cons a l ih =>
    cases hqa : q a
    · rw [List.filter_cons_of_neg (by simp [hqa]), List.filterMap_cons, hq a hqa, ih]
    · rw [List.filter_cons_of_pos (by simp [hqa]), List.filterMap_cons, List.filterMap_cons, ih]

/-- With exactly one resolved placement for a desired segment that the
leader view needs to (re)learn, the grow sub-diff emits exactly that one
grow task for the segment. -/
theorem filter_growFor_loaded_single (target : TargetState) (replica : Replica)
    (leaderView : LeaderView) (dist : List Segment) (now S : Int) (seg : Segment)
    (hres : (FindMaxVersionSegments dist).filter (fun x => x.id == S) = [seg])
    (hdes : target.getSealedSegmentCTF leaderView.collectionID S = true)
    (hneed : growNeeded leaderView seg = true) :
    (findNeedLoadedSegments target replica leaderView dist now).filter (isGrowFor S) =
      [mkGrowTask replica leaderView seg now] := by
  have hid : seg.id = S := by
    have hm : seg ∈ (FindMaxVersionSegments dist).filter (fun x => x.id == S) := by
      rw [hres]; exact List.mem_singleton.mpr rfl
    simpa using (List.mem_filter.mp hm).2
  unfold findNeedLoadedSegments
  rw [List.filter_filterMap]
  rw [filterMap_eq_filterMap_filter (q := fun x => x.id == S) ?side, hres]
  case side =>
    intro a ha
    by_cases hc : target.getSealedSegmentCTF leaderView.collectionID a.id
    · cases hl : leaderView.segments.lookup a.id with
      | none => simp [hc, hl, Option.filter, isGrowFor_mkGrowTask, ha]
      | some version =>
        by_cases hn : version.nodeID != a.node
        · simp [hc, hl, hn, Option.filter, isGrowFor_mkGrowTask, ha]
        · simp [hc, hl, hn]
    · simp [hc]
  have hc : target.getSealedSegmentCTF leaderView.collectionID seg.id = true := by
    rw [hid]; exact hdes
  have hg : isGrowFor S (mkGrowTask replica leaderView seg now) = true := by
    rw [isGrowFor_mkGrowTask, hid]
    exact beq_self_eq_true S
  rw [List.filterMap_cons, List.filterMap_nil]
  revert hneed
  unfold growNeeded
  cases hl : leaderView.segments.lookup seg.id with
  | none =>
    intro _
    simp [hc, hl, Option.filter, hg]
  | some version =>
    intro hneed
    have hv : ¬ version.nodeID = seg.node := by simpa using hneed
    simp [hc, hl, hv, Option.filter, hg]

/-- Once the leader view's entry for the segment already names the resolved
placement's node, the grow sub-diff emits no grow task for it. -/
theorem filter_growFor_loaded_nil (target : TargetState) (replica : Replica)
    (leaderView : LeaderView) (dist : List Segment) (now S : Int) (seg : Segment)
    (hres : (FindMaxVersionSegments dist).filter (fun x => x.id == S) = [seg])
    (hneed : growNeeded leaderView seg = false) :
    (findNeedLoadedSegments target replica leaderView dist now).filter (isGrowFor S) = [] := by
  unfold findNeedLoadedSegments
  rw [List.filter_filterMap]
  rw [filterMap_eq_filterMap_filter (q := fun x => x.id == S) ?side, hres]
  case side =>
    intro a ha
    by_cases hc : target.getSealedSegmentCTF leaderView.collectionID a.id
    · cases hl : leaderView.segments.lookup a.id with
      | none => simp [hc, hl, Option.filter, isGrowFor_mkGrowTask, ha]
      | some version =>
        by_cases hn : version.nodeID != a.node
        · simp [hc, hl, hn, Option.filter, isGrowFor_mkGrowTask, ha]
        · simp [hc, hl, hn]
    · simp [hc]
  rw [List.filterMap_cons, List.filterMap_nil]
  revert hneed
  unfold growNeeded
  cases hl : leaderView.segments.lookup seg.id with
  | none => intro h; exact absurd h (by simp)
  | some version =>
    intro hneed
    have hv : version.nodeID = seg.node := by simpa using hneed
    by_cases hc : target.getSealedSegmentCTF leaderView.collectionID seg.id
    · simp [hc, hl, hv, Option.filter]
    · simp [hc]

/-- Reduce tasks are never grow tasks for any segment. -/
theorem filter_growFor_removed (target : TargetState) (replica : Replica)
    (leaderView : LeaderView) (dists : List Segment) (S : Int) :
    (findNeedRemovedSegments target replica leaderView dists).filter (isGrowFor S) = [] := by
  rw [List.filter_eq_nil_iff]
  intro t ht
  obtain ⟨p, -, -, -, -, hteq⟩ := mem_findNeedRemovedSegments.mp ht
  subst hteq
  simp [isGrowFor, mkReduceTask]

/-- Update-stats tasks are never grow tasks for any segment. -/
theorem filter_growFor_sync (target : TargetState) (replica : Replica)
    (leaderView : LeaderView) (nodeID S : Int) :
    (findNeedSyncPartitionStats target replica leaderView nodeID).filter (isGrowFor S) = [] := by
  rw [List.filter_eq_nil_iff]
  intro t ht
  revert ht
  unfold findNeedSyncPartitionStats
  cases target.getDmChannelCTF leaderView.collectionID leaderView.channel with
  | none => simp
  | some psTarget =>
    by_cases hb : (partStatsToUpdate psTarget leaderView.partitionStatsVersions).isEmpty
    · simp [hb]
    · simp only [hb, Bool.false_eq_true, if_false, List.mem_singleton]
      intro ht
      subst ht
      simp [isGrowFor, mkPartStatsTask]

/-- A collection's target exists in some generation as soon as one of its
segments is desired under current-target-first. -/
theorem targetExists_of_sealed (ts : TargetState) (cid sid : Int)
    (h : ts.getSealedSegmentCTF cid sid = true) :
    (ts.isNextTargetExist cid || ts.isCurrentTargetExist cid) = true := by
  rw [TargetState.getSealedSegmentCTF, Bool.or_eq_true] at h
  rw [Bool.or_eq_true]
  rcases h with h | h
  · right
    rw [inGenTarget] at h
    rw [TargetState.isCurrentTargetExist]
    cases hc : getCollectionTarget ts.current cid with
    | none => rw [hc] at h; exact absurd h (by simp)
    | some t => simp
  · left
    rw [inGenTarget] at h
    rw [TargetState.isNextTargetExist]
    cases hc : getCollectionTarget ts.next cid with
    | none => rw [hc] at h; exact absurd h (by simp)
    | some t => simp

/-- Evaluates the full scan on the one-delegator topology: it reduces to the
three sub-diffs of that single leader view. -/
theorem Check_oneDelegatorState (replica : Replica) (node : Int) (leaderView : LeaderView)
    (dist : List Segment) (ts : TargetState) (now : Int)
    (hrep : replica.collectionID = leaderView.collectionID)
    (hnodes : replica.rwNodes = [node])
    (hdist : dist.filter (fun x => x.insertChannel == leaderView.channel &&
        (x.collectionID == replica.collectionID && replica.nodes.contains x.node)) = dist)
    (hready : (ts.isNextTargetExist leaderView.collectionID ||
        ts.isCurrentTargetExist leaderView.collectionID) = true) :
    Check (oneDelegatorState replica node leaderView dist ts) now =
      findNeedLoadedSegments ts replica leaderView dist now ++
        findNeedRemovedSegments ts replica leaderView dist ++
          findNeedSyncPartitionStats ts replica leaderView node := by
  have hmeta : (oneDelegatorState replica node leaderView dist ts).getCollection
      leaderView.collectionID = true := by
    simp [oneDelegatorState, ClusterState.getCollection]
  have hr : readyToCheck (oneDelegatorState replica node leaderView dist ts)
      leaderView.collectionID = true := by
    rw [readyToCheck, hmeta, Bool.true_and]
    exact hready
  have hreps : (oneDelegatorState replica node leaderView dist ts).getReplicasByCollection
      leaderView.collectionID = [replica] := by
    simp [oneDelegatorState, ClusterState.getReplicasByCollection, hrep]
  have hdel : (oneDelegatorState replica node leaderView dist ts).getDelegatorList
      replica.collectionID node = [⟨replica.collectionID, node, leaderView⟩] := by
    simp [oneDelegatorState, ClusterState.getDelegatorList]
  have hsd : (oneDelegatorState replica node leaderView dist ts).getSegmentDist
      leaderView.channel replica = dist := hdist
  have hactive : (oneDelegatorState replica node leaderView dist ts).active = true := rfl
  have hcols : (oneDelegatorState replica node leaderView dist ts).collections =
      [leaderView.collectionID] := rfl
  have hstream : (oneDelegatorState replica node leaderView dist ts).streamingEnabled =
      false := rfl
  rw [Check, hactive]
  simp only [Bool.not_true, Bool.false_eq_true, if_false]
  rw [hcols, List.flatMap_cons, List.flatMap_nil, List.append_nil]
  rw [checkCollection, hr, hmeta]
  simp only [Bool.not_true, Bool.false_eq_true, if_false]
  rw [hreps, List.flatMap_cons, List.flatMap_nil, List.append_nil, hstream]
  simp only [Bool.false_eq_true, if_false]
  rw [hnodes, List.flatMap_cons, List.flatMap_nil, List.append_nil]
  rw [hdel, List.flatMap_cons, List.flatMap_nil, List.append_nil]
  show findNeedLoadedSegments ts replica leaderView
      ((oneDelegatorState replica node leaderView dist ts).getSegmentDist
        leaderView.channel replica) now ++
    findNeedRemovedSegments ts replica leaderView
      ((oneDelegatorState replica node leaderView dist ts).getSegmentDist
        leaderView.channel replica) ++
      findNeedSyncPartitionStats ts replica leaderView node = _
  rw [hsd]

/-- A state-threaded flatMap over state-preserving steps preserves the
state and computes the plain flatMap. -/
theorem stFlatMap_of_pure {σ α β : Type} (f : σ → α → σ × List β)
    (h : ∀ s a, (f s a).1 = s) (s : σ) (l : List α) :
    stFlatMap f s l = (s, l.flatMap fun a => (f s a).2) := by
  induction l generalizing s with
  | nil => rfl
  | cons a l ih => simp [stFlatMap, h, ih]

/-- A state-threaded filterMap over state-preserving steps preserves the
state and computes the plain filterMap. -/
theorem stFilterMap_of_pure {σ α β : Type} (f : σ → α → σ × Option β)
    (h : ∀ s a, (f s a).1 = s) (s : σ) (l : List α) :
    stFilterMap f s l = (s, l.filterMap fun a => (f s a).2) := by
  induction l generalizing s with
  | nil => rfl
  | cons a l ih =>
    simp only [stFilterMap, h, ih, List.filterMap_cons]
    cases (f s a).2 <;> simp

/-- The threaded grow sub-diff neither alters the state nor differs from
the pure one. -/
theorem findNeedLoadedSegmentsSt_eq (s : ClusterState) (replica : Replica)
    (leaderView : LeaderView) (dist : List Segment) (now : Int) :
    findNeedLoadedSegmentsSt s replica leaderView dist now =
      (s, findNeedLoadedSegments s.target replica leaderView dist now) := by
  unfold findNeedLoadedSegmentsSt
  rw [stFilterMap_of_pure _ (fun s1 a => rfl)]
  rfl

/-- The threaded reduce sub-diff neither alters the state nor differs from
the pure one. -/
theorem findNeedRemovedSegmentsSt_eq (s : ClusterState) (replica : Replica)
    (leaderView : LeaderView) (dists : List Segment) :
    findNeedRemovedSegmentsSt s replica leaderView dists =
      (s, findNeedRemovedSegments s.target replica leaderView dists) := by
  unfold findNeedRemovedSegmentsSt
  rw [stFilterMap_of_pure _ (fun s1 a => rfl)]
  rfl

/-- The threaded partition-stats sub-diff neither alters the state nor
differs from the pure one. -/
theorem findNeedSyncPartitionStatsSt_eq (s : ClusterState) (replica : Replica)
    (leaderView : LeaderView) (nodeID : Int) :
    findNeedSyncPartitionStatsSt s replica leaderView nodeID =
      (s, findNeedSyncPartitionStats s.target replica leaderView nodeID) := by
  unfold findNeedSyncPartitionStatsSt findNeedSyncPartitionStats getDmChannelSt
  cases s.target.getDmChannelCTF leaderView.collectionID leaderView.channel <;> rfl

/-- The threaded per-delegator body neither alters the state nor differs
from the pure one. -/
theorem checkDelegatorSt_eq (s : ClusterState) (replica : Replica) (node : Int)
    (d : DmChannel) (now : Int) :
    checkDelegatorSt s replica node d now = (s, checkDelegator s replica node d now) := by
  unfold checkDelegatorSt checkDelegator getSegmentDistSt
  simp only [findNeedLoadedSegmentsSt_eq, findNeedRemovedSegmentsSt_eq,
    findNeedSyncPartitionStatsSt_eq]

/-- The threaded per-collection body neither alters the state nor differs
from the pure one. -/
theorem checkCollectionSt_eq (s : ClusterState) (now collectionID : Int) :
    checkCollectionSt s now collectionID = (s, checkCollection s now collectionID) := by
  unfold checkCollectionSt checkCollection readyToCheckSt getCollectionSt
    getReplicasByCollectionSt getDelegatorListSt
  by_cases h1 : readyToCheck s collectionID
  · by_cases h2 : s.getCollection collectionID
    · simp only [h1, h2, Bool.not_true, Bool.false_eq_true, if_false]
      rw [stFlatMap_of_pure]
      · apply congrArg (Prod.mk s)
        apply flatMap_ext
        intro replica
        rw [stFlatMap_of_pure]
        · apply flatMap_ext
          intro node
          rw [stFlatMap_of_pure _ (fun s3 d => by rw [checkDelegatorSt_eq])]
          apply flatMap_ext
          intro d
          rw [checkDelegatorSt_eq]
        · intro s2 node
          rw [stFlatMap_of_pure _ (fun s3 d => by rw [checkDelegatorSt_eq])]
      · intro s1 replica
        rw [stFlatMap_of_pure]
        intro s2 node
        rw [stFlatMap_of_pure _ (fun s3 d => by rw [checkDelegatorSt_eq])]
    · simp [h1, h2]
  · simp [h1]

/-- Claim C1: for every resolved authoritative observed placement of the
leader view's channel whose segment is present in the current-target-first
sealed-segment view, the Differ emits a grow task iff the leader view's
segment map has no entry for that segment ID or its entry names a hosting
node different from the placement's node; each such task has target
leader-view ID = the delegator's view ID, worker node = the placement's
node, channel = the segment's insert channel, subject = the segment ID, and
timestamp hint = the invocation time. -/
theorem grow_task_characterization (target : TargetState) (replica : Replica)
    (leaderView : LeaderView) (dist : List Segment) (now : Int) (t : LeaderTask) :
    t ∈ findNeedLoadedSegments target replica leaderView dist now ↔
      ∃ s, s ∈ FindMaxVersionSegments dist ∧
        target.getSealedSegmentCTF leaderView.collectionID s.id = true ∧
        growNeeded leaderView s = true ∧
        t = { kind := .grow, collectionID := s.collectionID, replicaID := replica.id,
              leaderViewID := leaderView.id, workerNode := s.node,
              channel := s.insertChannel, subject := .segment s.id, tsHint := now,
              priority := .low, reason := "add segment to leader view" } :=
  mem_findNeedLoadedSegments

/-- Claim C2: a leader-view segment entry produces a reduce task iff its
segment is absent from the observed placements of the channel/replica and
absent from both the current and the next target generation (so a segment
desired only by the next generation is never removed); each reduce task has
worker node = the leader view's own ID, channel = the leader view's
channel, subject = the segment ID, and timestamp hint 0. -/
theorem reduce_task_characterization (target : TargetState) (replica : Replica)
    (leaderView : LeaderView) (dists : List Segment) (t : LeaderTask) :
    t ∈ findNeedRemovedSegments target replica leaderView dists ↔
      ∃ p, p ∈ leaderView.segments ∧
        (∀ s ∈ dists, s.id ≠ p.1) ∧
        inGenTarget target.current leaderView.collectionID p.1 = false ∧
        inGenTarget target.next leaderView.collectionID p.1 = false ∧
        t = { kind := .reduce, collectionID := leaderView.collectionID,
              replicaID := replica.id, leaderViewID := leaderView.id,
              workerNode := leaderView.id, channel := leaderView.channel,
              subject := .segment p.1, tsHint := 0, priority := .low,
              reason := "remove segment from leader view" } :=
  mem_findNeedRemovedSegments

/-- Claim C3: the partition-stats sub-diff batches exactly the partitions
whose desired version in the channel descriptor strictly exceeds the leader
view's recorded version (mapped to the desired version); a non-empty batch
yields exactly one update task carrying the whole batch and targeting the
delegator's node, an empty batch or an absent descriptor yields no task. -/
theorem partition_stats_sync_characterization (target : TargetState) (replica : Replica)
    (leaderView : LeaderView) (nodeID : Int) :
    (target.getDmChannelCTF leaderView.collectionID leaderView.channel = none →
      findNeedSyncPartitionStats target replica leaderView nodeID = []) ∧
    (∀ psTarget,
      target.getDmChannelCTF leaderView.collectionID leaderView.channel = some psTarget →
      (∀ pid v : Int,
        (pid, v) ∈ partStatsToUpdate psTarget leaderView.partitionStatsVersions ↔
          ((pid, v) ∈ psTarget ∧
            (leaderView.partitionStatsVersions.lookup pid).getD 0 < v)) ∧
      (partStatsToUpdate psTarget leaderView.partitionStatsVersions = [] →
        findNeedSyncPartitionStats target replica leaderView nodeID = []) ∧
      (partStatsToUpdate psTarget leaderView.partitionStatsVersions ≠ [] →
        findNeedSyncPartitionStats target replica leaderView nodeID =
          [mkPartStatsTask replica leaderView nodeID
            (partStatsToUpdate psTarget leaderView.partitionStatsVersions)])) := by
  refine ⟨findNeedSyncPartitionStats_none,
    fun psTarget h => ⟨fun pid v => mem_partStatsToUpdate, ?_, ?_⟩⟩
  · intro hb
    rw [findNeedSyncPartitionStats_some h, if_pos hb]
  · intro hb
    rw [findNeedSyncPartitionStats_some h, if_neg hb]

/-- Witness for C3 at the spec's own example: descriptor 1 ↦ 3, 2 ↦ 5
against recorded 1 ↦ 3, 2 ↦ 2 emits one task carrying exactly 2 ↦ 5. -/
theorem partition_stats_sync_characterization_witness :
    findNeedSyncPartitionStats exTS exReplica exLV 1 =
      [mkPartStatsTask exReplica exLV 1 [(2, 5)]] :=
  ((partition_stats_sync_characterization exTS exReplica exLV 1).2
    [(1, 3), (2, 5)] rfl).2.2 (by decide)

/-- Claim C4: the scan is deterministic over a fixed snapshot — two
invocations at different times produce task lists with the same kind,
target leader view, target worker node and subject for each task, the
timestamp hint on grow tasks being the only possible difference. -/
theorem check_deterministic_content (s : ClusterState) (now1 now2 : Int) :
    (Check s now1).map taskKey = (Check s now2).map taskKey := by
  unfold Check
  split
  · rfl
  · rw [List.map_flatMap, List.map_flatMap]
    apply flatMap_ext
    intro c
    exact taskKey_checkCollection s c now1 now2

/-- Claim C5: on a topology with one delegator, a leader view missing a
desired segment S whose single resolved placement sits on node `seg.node`
makes the scan emit exactly one grow task for S targeting that node; after
the leader view's map learns S ↦ that node, the scan emits no grow task
for S. -/
theorem grow_convergence_roundtrip (replica : Replica) (node : Int)
    (leaderView : LeaderView) (dist : List Segment) (ts : TargetState)
    (now now2 v S : Int) (seg : Segment)
    (hrep : replica.collectionID = leaderView.collectionID)
    (hnodes : replica.rwNodes = [node])
    (hdist : dist.filter (fun x => x.insertChannel == leaderView.channel &&
        (x.collectionID == replica.collectionID && replica.nodes.contains x.node)) = dist)
    (hres : (FindMaxVersionSegments dist).filter (fun x => x.id == S) = [seg])
    (hdes : ts.getSealedSegmentCTF leaderView.collectionID S = true)
    (habs : leaderView.segments.lookup S = none) :
    (Check (oneDelegatorState replica node leaderView dist ts) now).filter (isGrowFor S) =
        [mkGrowTask replica leaderView seg now] ∧
      (mkGrowTask replica leaderView seg now).workerNode = seg.node ∧
      (Check (oneDelegatorState replica node
            { leaderView with segments := (S, ⟨seg.node, v⟩) :: leaderView.segments }
            dist ts) now2).filter (isGrowFor S) = [] := by
  have hid : seg.id = S := by
    have hm : seg ∈ (FindMaxVersionSegments dist).filter (fun x => x.id == S) := by
      rw [hres]
      exact List.mem_singleton.mpr rfl
    simpa using (List.mem_filter.mp hm).2
  have hready := targetExists_of_sealed ts leaderView.collectionID S hdes
  refine ⟨?_, rfl, ?_⟩
  · rw [Check_oneDelegatorState replica node leaderView dist ts now hrep hnodes hdist hready,
      List.filter_append, List.filter_append]
    rw [filter_growFor_loaded_single ts replica leaderView dist now S seg hres hdes ?need,
      filter_growFor_removed, filter_growFor_sync, List.append_nil, List.append_nil]
    case need =>
      unfold growNeeded
      rw [hid, habs]
  · have hneed2 : growNeeded
        { leaderView with segments := (S, (⟨seg.node, v⟩ : SegmentDist)) ::
            leaderView.segments } seg = false := by
      unfold growNeeded
      rw [hid]
      simp
    rw [Check_oneDelegatorState replica node
        { leaderView with segments := (S, (⟨seg.node, v⟩ : SegmentDist)) ::
            leaderView.segments } dist ts now2 hrep hnodes hdist hready,
      List.filter_append, List.filter_append]
    rw [filter_growFor_loaded_nil ts replica
        { leaderView with segments := (S, (⟨seg.node, v⟩ : SegmentDist)) ::
            leaderView.segments } dist now2 S seg hres hneed2,
      filter_growFor_removed, filter_growFor_sync, List.append_nil, List.append_nil]

/-- Witness for C5 at a concrete one-delegator topology. -/
theorem grow_convergence_roundtrip_witness :
    (Check (oneDelegatorState exReplica 1 exLV0 [exSeg5] exTS0) 42).filter (isGrowFor 5) =
        [mkGrowTask exReplica exLV0 exSeg5 42] ∧
      (mkGrowTask exReplica exLV0 exSeg5 42).workerNode = exSeg5.node ∧
      (Check (oneDelegatorState exReplica 1
            { exLV0 with segments := (5, ⟨exSeg5.node, 9⟩) :: exLV0.segments }
            [exSeg5] exTS0) 43).filter (isGrowFor 5) = [] :=
  grow_convergence_roundtrip exReplica 1 exLV0 [exSeg5] exTS0 42 43 9 5 exSeg5
    (by decide) (by decide) (by decide) (by decide) (by decide) (by decide)

/-- Claim C6: with the activation gate off, the scan returns the empty task
list whatever the rest of the snapshot holds. -/
theorem inactive_gate_empty (s : ClusterState) (now : Int) (h : s.active = false) :
    Check s now = [] := by
  unfold Check
  rw [h]
  rfl

/-- Witness for C6 on the divergent example snapshot with the gate off. -/
theorem inactive_gate_empty_witness :
    ({ exST with active := false } : ClusterState).active = false ∧
      Check { exST with active := false } 42 = [] :=
  ⟨rfl, inactive_gate_empty { exST with active := false } 42 rfl⟩

/-- Claim C7: a collection with no metadata, or with neither target
generation, contributes no tasks and is skipped silently: dropping it from
the enumeration leaves the scan's output unchanged. -/
theorem not_ready_collection_skipped (s : ClusterState) (now collectionID : Int)
    (h : s.getCollection collectionID = false ∨
      (s.target.isNextTargetExist collectionID = false ∧
        s.target.isCurrentTargetExist collectionID = false)) :
    checkCollection s now collectionID = [] ∧
    Check s now = Check (dropCollection s collectionID) now := by
  have hready : readyToCheck s collectionID = false := by
    rw [readyToCheck]
    rcases h with h | ⟨h1, h2⟩
    · rw [h]
      rfl
    · rw [h1, h2]
      simp
  have hempty : checkCollection s now collectionID = [] := by
    rw [checkCollection, hready]
    rfl
  refine ⟨hempty, ?_⟩
  have hcols : (dropCollection s collectionID).collections =
      s.collections.filter (fun c => c != collectionID) := rfl
  have hcore : s.collections.flatMap (checkCollection s now) =
      (dropCollection s collectionID).collections.flatMap
        (checkCollection (dropCollection s collectionID) now) := by
    rw [hcols]
    calc s.collections.flatMap (checkCollection s now)
        = (s.collections.filter (fun c => c != collectionID)).flatMap
            (checkCollection s now) := flatMap_filter_ne _ _ _ hempty
      _ = _ := flatMap_ext _ (fun c =>
            (checkCollection_dropCollection s collectionID now c).symm)
  have hact : (dropCollection s collectionID).active = s.active := rfl
  rw [Check, Check, hact]
  by_cases ha : s.active = true
  · rw [if_neg (by simp [ha] : ¬ ((!s.active) = true)),
      if_neg (by simp [ha] : ¬ ((!s.active) = true))]
    exact hcore
  · have ha2 : ((!s.active) = true) := by simpa using ha
    rw [if_pos ha2, if_pos ha2]

/-- Witness for C7: collection 200 is enumerated but has no metadata. -/
theorem not_ready_collection_skipped_witness :
    checkCollection exST 42 200 = [] ∧
      Check exST 42 = Check (dropCollection exST 200) 42 :=
  not_ready_collection_skipped exST 42 200 (Or.inl (by decide))

/-- Claim C8: every task of the three sub-diffs carries low priority, and
its reason is exactly "add segment to leader view" for grow tasks, "remove
segment from leader view" for reduce tasks and "sync partition stats
versions" for update-stats tasks. -/
theorem tasks_low_priority_and_reason (target : TargetState) (replica : Replica)
    (leaderView : LeaderView) (dist : List Segment) (nodeID now : Int) :
    (∀ t ∈ findNeedLoadedSegments target replica leaderView dist now,
      t.priority = TaskPriority.low ∧ t.reason = "add segment to leader view") ∧
    (∀ t ∈ findNeedRemovedSegments target replica leaderView dist,
      t.priority = TaskPriority.low ∧ t.reason = "remove segment from leader view") ∧
    (∀ t ∈ findNeedSyncPartitionStats target replica leaderView nodeID,
      t.priority = TaskPriority.low ∧ t.reason = "sync partition stats versions") := by
  refine ⟨?_, ?_, ?_⟩
  · intro t ht
    obtain ⟨s, -, -, -, rfl⟩ := mem_findNeedLoadedSegments.mp ht
    exact ⟨rfl, rfl⟩
  · intro t ht
    obtain ⟨p, -, -, -, -, rfl⟩ := mem_findNeedRemovedSegments.mp ht
    exact ⟨rfl, rfl⟩
  · intro t ht
    revert ht
    cases hch : target.getDmChannelCTF leaderView.collectionID leaderView.channel with
    | none =>
      rw [findNeedSyncPartitionStats_none hch]
      intro ht
      exact absurd ht (by simp)
    | some psTarget =>
      rw [findNeedSyncPartitionStats_some hch]
      split
      · intro ht
        exact absurd ht (by simp)
      · intro ht
        rw [List.mem_singleton] at ht
        subst ht
        exact ⟨rfl, rfl⟩

/-- Witness for C8 on a concrete emitted grow task. -/
theorem tasks_low_priority_and_reason_witness :
    (mkGrowTask exReplica exLV exSeg5 42).priority = TaskPriority.low ∧
      (mkGrowTask exReplica exLV exSeg5 42).reason = "add segment to leader view" :=
  (tasks_low_priority_and_reason exTS exReplica exLV exST.segmentDist 1 42).1
    (mkGrowTask exReplica exLV exSeg5 42) (by decide)

/-- Claim C9: the scan with every reader call threaded through the state
returns the state unchanged — the checker never mutates the leader view,
the observed distribution or the target state — and its task output is the
pure scan's. -/
theorem check_preserves_state (s : ClusterState) (now : Int) :
    (CheckSt s now).1 = s ∧ (CheckSt s now).2 = Check s now := by
  have h : CheckSt s now = (s, Check s now) := by
    unfold CheckSt Check isActiveSt getAllCollectionsSt
    by_cases ha : s.active
    · simp only [ha, Bool.not_true, Bool.false_eq_true, if_false]
      rw [stFlatMap_of_pure _ (fun s1 c => by rw [checkCollectionSt_eq])]
      apply congrArg (Prod.mk s)
      apply flatMap_ext
      intro c
      rw [checkCollectionSt_eq]
    · have ha' : s.active = false := by simpa using ha
      simp [ha']
  rw [h]
  exact ⟨rfl, rfl⟩

/-- Claim C10: a partition absent from the leader view's stats map is
treated as recorded version 0 — batched iff its desired version exceeds 0 —
and a partition absent from the target descriptor is never batched even if
the leader view records it. -/
theorem partition_stats_default_zero (psTarget psLView : List (Int × Int)) :
    (∀ pid v : Int, (pid, v) ∈ psTarget → psLView.lookup pid = none →
      ((pid, v) ∈ partStatsToUpdate psTarget psLView ↔ 0 < v)) ∧
    (∀ pid w v : Int, psLView.lookup pid = some w → psTarget.lookup pid = none →
      (pid, v) ∉ partStatsToUpdate psTarget psLView) := by
  constructor
  · intro pid v hin hnone
    rw [mem_partStatsToUpdate]
    simp [hnone, hin]
  · intro pid w v hrec habs hmem
    obtain ⟨hin, -⟩ := mem_partStatsToUpdate.mp hmem
    rw [List.lookup_eq_none_iff] at habs
    have hne := habs (pid, v) hin
    simp at hne

/-- Witness for C10: partition 3 (absent from the view, desired at 7) is
batched; partition 2 (recorded in the view, absent from the target) is
not. -/
theorem partition_stats_default_zero_witness :
    ((3, 7) ∈ partStatsToUpdate [(3, 7)] [(2, 5)] ↔ (0 : Int) < 7) ∧
      (2, 9) ∉ partStatsToUpdate [(3, 7)] [(2, 5)] :=
  ⟨(partition_stats_default_zero [(3, 7)] [(2, 5)]).1 3 7 (by decide) (by decide),
    (partition_stats_default_zero [(3, 7)] [(2, 5)]).2 2 5 9 (by decide) (by decide)⟩

/-- Witness for C1: the stale route for segment 5 (leader view says node 2,
freshest copy on node 3) yields its grow task on the example snapshot. -/
theorem grow_task_characterization_witness :
    mkGrowTask exReplica exLV exSeg5 42 ∈
      findNeedLoadedSegments exTS exReplica exLV exST.segmentDist 42 :=
  (grow_task_characterization exTS exReplica exLV exST.segmentDist 42
      (mkGrowTask exReplica exLV exSeg5 42)).mpr
    ⟨exSeg5, by decide, by decide, by decide, rfl⟩

/-- Witness for C2: garbage segment 6 (unobserved, undesired) yields its
reduce task on the example snapshot. -/
theorem reduce_task_characterization_witness :
    mkReduceTask exReplica exLV 6 ∈
      findNeedRemovedSegments exTS exReplica exLV exST.segmentDist :=
  (reduce_task_characterization exTS exReplica exLV exST.segmentDist
      (mkReduceTask exReplica exLV 6)).mpr
    ⟨(6, ⟨2, 1⟩), by decide, by decide, by decide, by decide, rfl⟩

/-- Witness for C4 on the example snapshot at two invocation times. -/
theorem check_deterministic_content_witness :
    (Check exST 42).map taskKey = (Check exST 43).map taskKey :=
  check_deterministic_content exST 42 43

/-- Witness for C9 on the example snapshot. -/
theorem check_preserves_state_witness :
    (CheckSt exST 42).1 = exST ∧ (CheckSt exST 42).2 = Check exST 42 :=
  check_preserves_state exST 42

end Milvus
